import Mathlib

/-!
Verification development for the solar forecast & weather analysis engine.

The engine consists of the forecast pipeline (`calculateSolarPosition`,
`calculateCloudImpact`, `estimateAerosolFactor`, `calculateClearSkyIrradiance`,
`decomposeIrradiance`, `predictConfidence`, `generateSolarForecast`) and the
weather analyzer (`analyzeWeatherTrends`, `calculateForecastQuality`).

Two embeddings are given:
* a real-valued embedding (`ℝ`), faithful to the source on finite numeric data
  (JavaScript numbers that are not NaN/Infinity behave as real numbers for the
  operations used by this code, up to floating-point rounding, which is not
  modelled); and
* a JavaScript-number embedding (`JSNum`) that additionally models NaN and its
  propagation, used to settle the claim about non-finite coordinates.
-/

open Real

/-- The components of a JavaScript `Date` value that the solar position
calculation reads: `dayOfYear` is the value of
`Math.floor((date.getTime() - new Date(date.getFullYear(), 0, 0).getTime()) / 86400000)`,
and `utcHours`/`utcMinutes` are `getUTCHours()`/`getUTCMinutes()`.  Parsing an
ISO timestamp string into these components is done by the JavaScript `Date`
library, outside this repository, so the embedding takes the components as the
sample's time value directly. -/
structure JSDate where
  dayOfYear : ℤ
  utcHours : ℤ
  utcMinutes : ℤ
deriving DecidableEq, Repr

/-- Structure `LocationData` with coordinates already parsed to (finite) numbers; the
source's `typeof ... === 'string' ? parseFloat(...) : ...` step is the identity
here.  The NaN outcome of a failed parse is modelled in the `JSNum` embedding
below. -/
structure LocationData where
  latitude : ℝ
  longitude : ℝ

/-- Structure `SolarDataPoint` from `types.ts` (historical CSV data; the forecast
generator receives it but never reads it). -/
structure SolarDataPoint where
  timestamp : JSDate
  irradiance : ℝ
  temperature : Option ℝ

/-- Structure `WeatherForecastData` from `types.ts`: the channels read by
`generateSolarForecast`, index-aligned with `time`. -/
structure WeatherForecastData where
  time : List JSDate
  temperature_2m : List ℝ
  cloud_cover : List ℝ
  shortwave_radiation : List ℝ

/-- Structure `ForecastPoint` from `types.ts`. -/
structure ForecastPoint where
  time : JSDate
  predictedIrradiance : ℝ
  confidence : ℝ

/-- Result record of `calculateSolarPosition` (all in degrees). -/
structure SolarPosition where
  zenithAngle : ℝ
  elevation : ℝ
  azimuth : ℝ

/-- JavaScript `arr[index] || d`: the default `d` is used when the element is
absent (`undefined`) or falsy (`0`; the NaN case is covered by the `JSNum`
embedding). -/
noncomputable def jsIndexOr (l : List ℝ) (i : ℕ) (d : ℝ) : ℝ :=
  match l.get? i with
  | none => d
  | some v => if v = 0 then d else v

/-- Fractional year in radians (`gamma`, storageService.ts line 56). -/
noncomputable def solarGamma (date : JSDate) : ℝ :=
  2 * π * ((date.dayOfYear : ℝ) - 1) / 365

/-- Spencer's solar declination series (storageService.ts lines 59-66). -/
noncomputable def solarDeclination (gamma : ℝ) : ℝ :=
  0.006918 -
  0.399912 * cos gamma +
  0.070257 * sin gamma -
  0.006758 * cos (2 * gamma) +
  0.000907 * sin (2 * gamma) -
  0.00205 * cos (3 * gamma) +
  0.00029 * sin (3 * gamma)

/-- Equation of time in minutes (`eot`, storageService.ts lines 69-74). -/
noncomputable def solarEquationOfTime (gamma : ℝ) : ℝ :=
  229.18 *
  (0.017645 * sin (2 * gamma) -
    0.033827 * cos gamma -
    0.00969 * sin gamma -
    0.00569 * cos (2 * gamma))

/-- Hour angle in radians (storageService.ts lines 77-83): solar minutes are
UTC minutes of day plus equation of time plus `longitude * 4`. -/
noncomputable def solarHourAngle (longitude : ℝ) (date : JSDate) : ℝ :=
  let utcMinutes : ℝ := (date.utcHours : ℝ) * 60 + (date.utcMinutes : ℝ)
  let localMinutes := utcMinutes
  let solarMinutes := localMinutes + solarEquationOfTime (solarGamma date) + longitude * 4
  let solarHours := solarMinutes / 60
  (solarHours - 12) * 15 * π / 180

/-- Solar zenith/elevation/azimuth via Spencer's equations
(`calculateSolarPosition`, storageService.ts lines 46-114), assembled from the
named pieces above. -/
noncomputable def calculateSolarPosition (latitude longitude : ℝ) (date : JSDate) :
    SolarPosition :=
  let gamma := solarGamma date
  let declination := solarDeclination gamma
  let hourAngle := solarHourAngle longitude date
  let latRad := latitude * π / 180
  let sinElevation :=
    sin latRad * sin declination +
    cos latRad * cos declination * cos hourAngle
  let elevation := arcsin (max (-1) (min 1 sinElevation))
  let zenithAngle := π / 2 - elevation
  let azimuth :=
    if elevation > 0 then
      let cosAzimuth :=
        (sin declination - sin elevation * sin latRad) /
        (cos elevation * cos latRad)
      let az := arccos (max (-1) (min 1 cosAzimuth))
      if sin hourAngle > 0 then 2 * π - az else az
    else 0
  ⟨zenithAngle * (180 / π), elevation * (180 / π), azimuth * (180 / π)⟩

/-- Cloud attenuation factor (`calculateCloudImpact`, storageService.ts
lines 120-144). -/
noncomputable def calculateCloudImpact (cloudCover temperature : ℝ) : ℝ :=
  if cloudCover < 10 then 0.95
  else if cloudCover > 90 then 0.15
  else
    let cloudOpacity := (cloudCover / 100) ^ (1.3 : ℝ)
    let tempFactor := max 0.8 (min 1.0 ((temperature + 5) / 45))
    let reduction := 1 - cloudOpacity * tempFactor * 0.85
    max 0.1 reduction

/-- Aerosol transmission factor (`estimateAerosolFactor`, storageService.ts
lines 150-157). -/
noncomputable def estimateAerosolFactor (elevation : ℝ) : ℝ :=
  if elevation < 0 then 0
  else if elevation < 10 then 0.85
  else if elevation < 20 then 0.90
  else if elevation < 30 then 0.93
  else 0.95

/-- Clear-sky irradiance model (`calculateClearSkyIrradiance`,
storageService.ts lines 163-180).  The coefficients `c0`, `c1`, `c2` are
inlined with the source's values; note `c2 = -0.00639` and the exponent is
`c1 - c2 * airmass`. -/
noncomputable def calculateClearSkyIrradiance (elevation zenithAngle : ℝ) : ℝ :=
  if elevation ≤ 0 then 0
  else
    let zenithRad := zenithAngle * π / 180
    let airmass := 1 / (cos zenithRad + 0.50572 * (96.07995 - zenithAngle) ^ (-1.6364 : ℝ))
    let c0 : ℝ := 910.6
    let c1 : ℝ := 0.6797
    let c2 : ℝ := -0.00639
    let clearSkyGHI := c0 * exp (c1 - c2 * airmass) * max 0 (cos zenithRad)
    max 0 clearSkyGHI

/-- GHI decomposition into DNI/DHI (`decomposeIrradiance`, storageService.ts
lines 186-214). -/
noncomputable def decomposeIrradiance (ghi elevation cloudCover : ℝ) : ℝ × ℝ :=
  if elevation ≤ 0 then (0, 0)
  else
    let elevation_rad := elevation * π / 180
    let clearSkyGHI := calculateClearSkyIrradiance elevation (90 - elevation)
    let clearness := if clearSkyGHI > 0 then min 1 (ghi / clearSkyGHI) else 0
    let dhi :=
      if clearness ≤ 0.3 then
        ghi * (1.020 - 0.254 * clearness + 0.0123 * sin elevation_rad)
      else if clearness ≤ 0.78 then
        ghi * (0.972 - 0.306 * clearness + 0.0311 * sin elevation_rad)
      else
        ghi * (0.29 * clearness + 0.0049 * sin elevation_rad)
    let dni := max 0 ((ghi - dhi) / max 0.01 (sin elevation_rad))
    (max 0 dni, max 0 dhi)

/-- Forecast confidence (`predictConfidence`, storageService.ts lines 219-246).
The JS guard `index > 0 && index < weatherData.cloud_cover.length - 1` is the
integer condition `0 < index ∧ index + 1 < length`; under it both neighbour
accesses are in bounds, so `List.getD _ _ 0` agrees with the raw JS index
access. -/
noncomputable def predictConfidence (cloudCover elevation temperature : ℝ)
    (index : ℕ) (weatherData : WeatherForecastData) : ℝ :=
  if elevation < 0 then 0.95
  else
    let cloudVariance :=
      if 0 < index ∧ index + 1 < weatherData.cloud_cover.length then
        let prevCloud := weatherData.cloud_cover.getD (index - 1) 0
        let nextCloud := weatherData.cloud_cover.getD (index + 1) 0
        |prevCloud - nextCloud| / 100
      else 0
    let cloudConfidence := 1 - cloudVariance * 0.4
    let elevationConfidence := min 1 (elevation / 80)
    let tempConfidence := if temperature < -10 ∨ temperature > 40 then 0.7 else 0.9
    max 0.1 (cloudConfidence * elevationConfidence * tempConfidence)

/-- System efficiency constant (storageService.ts line 263). -/
noncomputable def systemEfficiency : ℝ := 0.85

/-- Temperature coefficient constant (storageService.ts line 264). -/
noncomputable def temperatureCoefficient : ℝ := -0.004

/-- Body of the per-sample arrow function inside `generateSolarForecast`
(storageService.ts lines 266-314), at map index `index` and time value
`time`. -/
noncomputable def forecastPoint (lat lon : ℝ) (weatherForecast : WeatherForecastData)
    (index : ℕ) (time : JSDate) : ForecastPoint :=
  let temperature := jsIndexOr weatherForecast.temperature_2m index 25
  let cloudCover := jsIndexOr weatherForecast.cloud_cover index 0
  let baseGHI := jsIndexOr weatherForecast.shortwave_radiation index 0
  let solarPos := calculateSolarPosition lat lon time
  if solarPos.elevation < 0 then
    ⟨time, 0, 0.95⟩
  else
    let clearSkyGHI := calculateClearSkyIrradiance solarPos.elevation solarPos.zenithAngle
    let cloudImpact := calculateCloudImpact cloudCover temperature
    let aerosolFactor := estimateAerosolFactor solarPos.elevation
    let predictedGHI := max 0 (baseGHI * cloudImpact * aerosolFactor)
    let tempDeviation := max 0 (temperature - 25)
    let tempLossFactor := 1 + temperatureCoefficient * tempDeviation
    let predictedIrradiance := max 0 (predictedGHI * systemEfficiency * tempLossFactor)
    let dd := decomposeIrradiance predictedGHI solarPos.elevation cloudCover
    let confidence := predictConfidence cloudCover solarPos.elevation temperature index
      weatherForecast
    ⟨time, predictedIrradiance, confidence⟩

/-- The map `weatherForecast.time.map((time, index) => ...)` as a recursion carrying the
map index. -/
noncomputable def forecastAux (lat lon : ℝ) (weatherForecast : WeatherForecastData) :
    ℕ → List JSDate → List ForecastPoint
  | _, [] => []
  | index, time :: rest =>
      forecastPoint lat lon weatherForecast index time ::
        forecastAux lat lon weatherForecast (index + 1) rest

/-- Function `generateSolarForecast` (storageService.ts lines 252-322) on finite numeric
inputs.  The `async`/`Promise` wrapper and the `try`/`catch` are dropped here:
the body performs no `await` and contains no `throw` (JavaScript arithmetic
does not throw), so the promise always resolves with the mapped array.  The
`catch` branch is modelled in the `JSNum` embedding. -/
noncomputable def generateSolarForecast (location : LocationData)
    (historicalData : List SolarDataPoint) (weatherForecast : WeatherForecastData) :
    List ForecastPoint :=
  forecastAux location.latitude location.longitude weatherForecast 0 weatherForecast.time

/-- Default `ForecastPoint` used with `List.getD` in theorem statements. -/
noncomputable def defaultPoint : ForecastPoint := ⟨⟨0, 0, 0⟩, 0, 0⟩

/-- Default `JSDate` used with `List.getD` in theorem statements. -/
def defaultDate : JSDate := ⟨0, 0, 0⟩

/-! ## Weather analyzer (part_002: `analyzeWeatherTrends`, `calculateForecastQuality`) -/

/-- The channels of `EnhancedWeatherForecast` read by the trend analyzer and
quality scorer; optional channels are `Option` (absent in JS is `undefined`).
The remaining presentation-only fields of the interface are not read by the
embedded functions and are omitted. -/
structure EnhancedWeatherForecast where
  temperature_2m : List ℝ
  cloud_cover : List ℝ
  windSpeed : Option (List ℝ)
  pressure : Option (List ℝ)
  humidity : Option (List ℝ)
  precipitation : Option (List ℝ)

/-- The five slope fields returned by `analyzeWeatherTrends`. -/
structure WeatherTrends where
  tempTrend : ℝ
  cloudCoverTrend : ℝ
  windSpeedTrend : ℝ
  pressureTrend : ℝ
  humidityTrend : ℝ

/-- JavaScript `Number(x.toFixed(d))`: decimal rounding to `d` digits.  ECMAScript's
`toFixed` picks the closest scaled integer, the larger one on ties, which is
`round` (`⌊x·10^d + 1/2⌋`). -/
noncomputable def roundTo (d : ℕ) (x : ℝ) : ℝ :=
  ((round (x * 10 ^ d) : ℤ) : ℝ) / 10 ^ d

/-- The `slice.forEach((y, x) => { numerator += (x - xMean) * (y - yMean) })`
accumulation inside `calculateTrend`, with the running index made explicit. -/
noncomputable def trendNum (xMean yMean : ℝ) : ℕ → List ℝ → ℝ
  | _, [] => 0
  | x, y :: ys => ((x : ℝ) - xMean) * (y - yMean) + trendNum xMean yMean (x + 1) ys

/-- The `denominator += Math.pow(x - xMean, 2)` accumulation inside
`calculateTrend`. -/
noncomputable def trendDen (xMean : ℝ) : ℕ → List ℝ → ℝ
  | _, [] => 0
  | x, _ :: ys => ((x : ℝ) - xMean) ^ 2 + trendDen xMean (x + 1) ys

/-- Inner `calculateTrend` of `analyzeWeatherTrends` (part_002 lines 114-130):
least-squares slope of the first `n` channel values against their index. -/
noncomputable def calculateTrend (n : ℕ) (data : List ℝ) : ℝ :=
  let slice := data.take n
  if slice.length < 2 then 0
  else
    let xMean := ((slice.length : ℝ) - 1) / 2
    let yMean := slice.sum / (slice.length : ℝ)
    let numerator := trendNum xMean yMean 0 slice
    let denominator := trendDen xMean 0 slice
    if denominator ≠ 0 then numerator / denominator else 0

/-- Function `analyzeWeatherTrends` (part_002 lines 108-141).  `data || []` on an
optional channel is `Option.getD _ []` (arrays are always truthy). -/
noncomputable def analyzeWeatherTrends (forecastData : EnhancedWeatherForecast) :
    WeatherTrends :=
  let n := min 24 forecastData.temperature_2m.length
  if n < 2 then ⟨0, 0, 0, 0, 0⟩
  else
    ⟨roundTo 3 (calculateTrend n forecastData.temperature_2m),
     roundTo 2 (calculateTrend n forecastData.cloud_cover),
     roundTo 3 (calculateTrend n (forecastData.windSpeed.getD [])),
     roundTo 2 (calculateTrend n (forecastData.pressure.getD [])),
     roundTo 2 (calculateTrend n (forecastData.humidity.getD []))⟩

/-- Function `calculateForecastQuality` (part_002 lines 173-197). -/
noncomputable def calculateForecastQuality (forecastData : EnhancedWeatherForecast) : ℝ :=
  if forecastData.temperature_2m.length = 0 then 0.5
  else
    let n := min 24 forecastData.temperature_2m.length
    let temps := forecastData.temperature_2m.take n
    let tempMean := temps.sum / (temps.length : ℝ)
    let tempVariance := (temps.map (fun t => (t - tempMean) ^ 2)).sum / (temps.length : ℝ)
    let tempStability := max 0.3 (1 - Real.sqrt tempVariance / 20)
    let clouds := forecastData.cloud_cover.take n
    let cloudMean := clouds.sum / (clouds.length : ℝ)
    let cloudVariance := (clouds.map (fun c => (c - cloudMean) ^ 2)).sum / (clouds.length : ℝ)
    let cloudStability := max 0.3 (1 - Real.sqrt cloudVariance / 40)
    let precip := ((forecastData.precipitation.getD []).take n)
    let hasPrecip := precip.any (fun p => decide (p > 0))
    let precipFactor := if hasPrecip then 0.85 else 1.0
    let quality := tempStability * 0.4 + cloudStability * 0.4 + precipFactor * 0.2
    min 0.99 (max 0.1 quality)

/-! ## JavaScript number semantics

`JSNum` models a JavaScript number as either a finite real or NaN.  This is
the embedding used to settle the non-finite-coordinate claim: `parseFloat` of
an unparsable coordinate string, and any arithmetic on it, yields NaN, and all
NaN comparisons are false.  Infinities are not represented (no operation on
the evaluated paths produces one from the modelled inputs); division by zero,
which would give an infinity in JavaScript, is mapped to NaN and does not
occur on the evaluated paths. -/

inductive JSNum where
  | fin : ℝ → JSNum
  | nan : JSNum

noncomputable def jsAdd : JSNum → JSNum → JSNum
  | .fin a, .fin b => .fin (a + b)
  | _, _ => .nan

noncomputable def jsSub : JSNum → JSNum → JSNum
  | .fin a, .fin b => .fin (a - b)
  | _, _ => .nan

noncomputable def jsMul : JSNum → JSNum → JSNum
  | .fin a, .fin b => .fin (a * b)
  | _, _ => .nan

noncomputable def jsDiv : JSNum → JSNum → JSNum
  | .fin a, .fin b => if b = 0 then .nan else .fin (a / b)
  | _, _ => .nan

/-- JavaScript `Math.max` of two arguments: NaN if either argument is NaN. -/
noncomputable def jsMax : JSNum → JSNum → JSNum
  | .fin a, .fin b => .fin (max a b)
  | _, _ => .nan

/-- JavaScript `Math.min` of two arguments: NaN if either argument is NaN. -/
noncomputable def jsMin : JSNum → JSNum → JSNum
  | .fin a, .fin b => .fin (min a b)
  | _, _ => .nan

noncomputable def jsAbs : JSNum → JSNum
  | .fin a => .fin |a|
  | .nan => .nan

noncomputable def jsSin : JSNum → JSNum
  | .fin a => .fin (sin a)
  | .nan => .nan

noncomputable def jsCos : JSNum → JSNum
  | .fin a => .fin (cos a)
  | .nan => .nan

/-- JavaScript `Math.asin`: NaN outside `[-1, 1]`. -/
noncomputable def jsAsin : JSNum → JSNum
  | .fin a => if -1 ≤ a ∧ a ≤ 1 then .fin (arcsin a) else .nan
  | .nan => .nan

/-- JavaScript `Math.acos`: NaN outside `[-1, 1]`. -/
noncomputable def jsAcos : JSNum → JSNum
  | .fin a => if -1 ≤ a ∧ a ≤ 1 then .fin (arccos a) else .nan
  | .nan => .nan

noncomputable def jsExp : JSNum → JSNum
  | .fin a => .fin (exp a)
  | .nan => .nan

/-- JavaScript `Math.pow` restricted to nonnegative finite bases (a negative base with
non-integer exponent is NaN in JavaScript; negative bases with integer
exponents do not occur on the evaluated paths). -/
noncomputable def jsPow : JSNum → JSNum → JSNum
  | .fin a, .fin b => if 0 ≤ a then .fin (a ^ b) else .nan
  | _, _ => .nan

/-- JavaScript `<`: false whenever either side is NaN. -/
noncomputable def jsLtB : JSNum → JSNum → Bool
  | .fin a, .fin b => if a < b then true else false
  | _, _ => false

/-- JavaScript `>`: false whenever either side is NaN. -/
noncomputable def jsGtB : JSNum → JSNum → Bool
  | .fin a, .fin b => if b < a then true else false
  | _, _ => false

/-- JavaScript `<=`: false whenever either side is NaN. -/
noncomputable def jsLeB : JSNum → JSNum → Bool
  | .fin a, .fin b => if a ≤ b then true else false
  | _, _ => false

/-! ### Evaluation lemmas for the JavaScript operations -/

@[simp] theorem jsAdd_fin_fin (a b : ℝ) : jsAdd (.fin a) (.fin b) = .fin (a + b) := rfl

@[simp] theorem jsAdd_nan_left (x : JSNum) : jsAdd .nan x = .nan := by cases x <;> rfl

@[simp] theorem jsAdd_nan_right (x : JSNum) : jsAdd x .nan = .nan := by cases x <;> rfl

@[simp] theorem jsSub_fin_fin (a b : ℝ) : jsSub (.fin a) (.fin b) = .fin (a - b) := rfl

@[simp] theorem jsSub_nan_left (x : JSNum) : jsSub .nan x = .nan := by cases x <;> rfl

@[simp] theorem jsSub_nan_right (x : JSNum) : jsSub x .nan = .nan := by cases x <;> rfl

@[simp] theorem jsMul_fin_fin (a b : ℝ) : jsMul (.fin a) (.fin b) = .fin (a * b) := rfl

@[simp] theorem jsMul_nan_left (x : JSNum) : jsMul .nan x = .nan := by cases x <;> rfl

@[simp] theorem jsMul_nan_right (x : JSNum) : jsMul x .nan = .nan := by cases x <;> rfl

@[simp] theorem jsDiv_nan_left (x : JSNum) : jsDiv .nan x = .nan := by cases x <;> rfl

@[simp] theorem jsDiv_nan_right (x : JSNum) : jsDiv x .nan = .nan := by cases x <;> rfl

theorem jsDiv_fin_fin (a b : ℝ) (hb : b ≠ 0) : jsDiv (.fin a) (.fin b) = .fin (a / b) := by
  simp [jsDiv, hb]

@[simp] theorem jsMax_fin_fin (a b : ℝ) : jsMax (.fin a) (.fin b) = .fin (max a b) := rfl

@[simp] theorem jsMax_nan_left (x : JSNum) : jsMax .nan x = .nan := by cases x <;> rfl

@[simp] theorem jsMax_nan_right (x : JSNum) : jsMax x .nan = .nan := by cases x <;> rfl

@[simp] theorem jsMin_fin_fin (a b : ℝ) : jsMin (.fin a) (.fin b) = .fin (min a b) := rfl

@[simp] theorem jsMin_nan_left (x : JSNum) : jsMin .nan x = .nan := by cases x <;> rfl

@[simp] theorem jsMin_nan_right (x : JSNum) : jsMin x .nan = .nan := by cases x <;> rfl

@[simp] theorem jsSin_fin (a : ℝ) : jsSin (.fin a) = .fin (sin a) := rfl

@[simp] theorem jsSin_nan : jsSin .nan = .nan := rfl

@[simp] theorem jsCos_fin (a : ℝ) : jsCos (.fin a) = .fin (cos a) := rfl

@[simp] theorem jsCos_nan : jsCos .nan = .nan := rfl

@[simp] theorem jsAsin_nan : jsAsin .nan = .nan := rfl

@[simp] theorem jsAcos_nan : jsAcos .nan = .nan := rfl

@[simp] theorem jsExp_fin (a : ℝ) : jsExp (.fin a) = .fin (exp a) := rfl

@[simp] theorem jsExp_nan : jsExp .nan = .nan := rfl

@[simp] theorem jsPow_nan_left (x : JSNum) : jsPow .nan x = .nan := by cases x <;> rfl

@[simp] theorem jsPow_nan_right (x : JSNum) : jsPow x .nan = .nan := by cases x <;> rfl

@[simp] theorem jsLtB_nan_left (x : JSNum) : jsLtB .nan x = false := by cases x <;> rfl

@[simp] theorem jsLtB_nan_right (x : JSNum) : jsLtB x .nan = false := by cases x <;> rfl

@[simp] theorem jsLtB_fin_fin (a b : ℝ) : jsLtB (.fin a) (.fin b) = decide (a < b) := by
  simp [jsLtB]

@[simp] theorem jsGtB_nan_left (x : JSNum) : jsGtB .nan x = false := by cases x <;> rfl

@[simp] theorem jsGtB_nan_right (x : JSNum) : jsGtB x .nan = false := by cases x <;> rfl

@[simp] theorem jsGtB_fin_fin (a b : ℝ) : jsGtB (.fin a) (.fin b) = decide (b < a) := by
  simp [jsGtB]

@[simp] theorem jsLeB_nan_left (x : JSNum) : jsLeB .nan x = false := by cases x <;> rfl

@[simp] theorem jsLeB_nan_right (x : JSNum) : jsLeB x .nan = false := by cases x <;> rfl

@[simp] theorem jsLeB_fin_fin (a b : ℝ) : jsLeB (.fin a) (.fin b) = decide (a ≤ b) := by
  simp [jsLeB]

/-! ### JavaScript-semantics embedding of the forecast pipeline -/

/-- Structure `LocationData` as received at the `generateSolarForecast` boundary:
`parseFloat` has been applied, so a non-numeric coordinate string is NaN. -/
structure LocationDataJS where
  latitude : JSNum
  longitude : JSNum

/-- Structure `SolarDataPoint` with JavaScript numbers (never read). -/
structure SolarDataPointJS where
  timestamp : JSDate
  irradiance : JSNum
  temperature : Option JSNum

/-- Structure `WeatherForecastData` with JavaScript numbers. -/
structure WeatherForecastDataJS where
  time : List JSDate
  temperature_2m : List JSNum
  cloud_cover : List JSNum
  shortwave_radiation : List JSNum

/-- Structure `ForecastPoint` with JavaScript numbers. -/
structure ForecastPointJS where
  time : JSDate
  predictedIrradiance : JSNum
  confidence : JSNum

/-- Structure `SolarPosition` with JavaScript numbers. -/
structure SolarPositionJS where
  zenithAngle : JSNum
  elevation : JSNum
  azimuth : JSNum

/-- Lookup `arr[index] || d` on JavaScript numbers: `undefined`, `0` and NaN are all
falsy. -/
noncomputable def jsIndexOrJS (l : List JSNum) (i : ℕ) (d : JSNum) : JSNum :=
  match l.get? i with
  | none => d
  | some .nan => d
  | some (.fin v) => if v = 0 then d else .fin v

/-- Function `calculateSolarPosition` under JavaScript number semantics. -/
noncomputable def calculateSolarPositionJS (latitude longitude : JSNum) (date : JSDate) :
    SolarPositionJS :=
  let dayOfYear : JSNum := .fin (date.dayOfYear : ℝ)
  let gamma := jsDiv (jsMul (jsMul (.fin 2) (.fin π)) (jsSub dayOfYear (.fin 1))) (.fin 365)
  let declination :=
    jsAdd
      (jsSub
        (jsAdd
          (jsSub
            (jsAdd
              (jsSub (.fin 0.006918) (jsMul (.fin 0.399912) (jsCos gamma)))
              (jsMul (.fin 0.070257) (jsSin gamma)))
            (jsMul (.fin 0.006758) (jsCos (jsMul (.fin 2) gamma))))
          (jsMul (.fin 0.000907) (jsSin (jsMul (.fin 2) gamma))))
        (jsMul (.fin 0.00205) (jsCos (jsMul (.fin 3) gamma))))
      (jsMul (.fin 0.00029) (jsSin (jsMul (.fin 3) gamma)))
  let eot :=
    jsMul (.fin 229.18)
      (jsSub
        (jsSub
          (jsSub (jsMul (.fin 0.017645) (jsSin (jsMul (.fin 2) gamma)))
            (jsMul (.fin 0.033827) (jsCos gamma)))
          (jsMul (.fin 0.00969) (jsSin gamma)))
        (jsMul (.fin 0.00569) (jsCos (jsMul (.fin 2) gamma))))
  let utcMinutes : JSNum := .fin ((date.utcHours : ℝ) * 60 + (date.utcMinutes : ℝ))
  let localMinutes := utcMinutes
  let solarMinutes := jsAdd (jsAdd localMinutes eot) (jsMul longitude (.fin 4))
  let solarHours := jsDiv solarMinutes (.fin 60)
  let hourAngle := jsDiv (jsMul (jsMul (jsSub solarHours (.fin 12)) (.fin 15)) (.fin π)) (.fin 180)
  let latRad := jsDiv (jsMul latitude (.fin π)) (.fin 180)
  let sinElevation :=
    jsAdd (jsMul (jsSin latRad) (jsSin declination))
      (jsMul (jsMul (jsCos latRad) (jsCos declination)) (jsCos hourAngle))
  let elevation := jsAsin (jsMax (.fin (-1)) (jsMin (.fin 1) sinElevation))
  let zenithAngle := jsSub (.fin (π / 2)) elevation
  let azimuth :=
    if jsGtB elevation (.fin 0) then
      let cosAzimuth :=
        jsDiv (jsSub (jsSin declination) (jsMul (jsSin elevation) (jsSin latRad)))
          (jsMul (jsCos elevation) (jsCos latRad))
      let az := jsAcos (jsMax (.fin (-1)) (jsMin (.fin 1) cosAzimuth))
      if jsGtB (jsSin hourAngle) (.fin 0) then jsSub (jsMul (.fin 2) (.fin π)) az else az
    else .fin 0
  ⟨jsMul zenithAngle (.fin (180 / π)),
   jsMul elevation (.fin (180 / π)),
   jsMul azimuth (.fin (180 / π))⟩

/-- Function `calculateCloudImpact` under JavaScript number semantics. -/
noncomputable def calculateCloudImpactJS (cloudCover temperature : JSNum) : JSNum :=
  if jsLtB cloudCover (.fin 10) then .fin 0.95
  else if jsGtB cloudCover (.fin 90) then .fin 0.15
  else
    let cloudOpacity := jsPow (jsDiv cloudCover (.fin 100)) (.fin 1.3)
    let tempFactor :=
      jsMax (.fin 0.8) (jsMin (.fin 1.0) (jsDiv (jsAdd temperature (.fin 5)) (.fin 45)))
    let reduction := jsSub (.fin 1) (jsMul (jsMul cloudOpacity tempFactor) (.fin 0.85))
    jsMax (.fin 0.1) reduction

/-- Function `estimateAerosolFactor` under JavaScript number semantics. -/
noncomputable def estimateAerosolFactorJS (elevation : JSNum) : JSNum :=
  if jsLtB elevation (.fin 0) then .fin 0
  else if jsLtB elevation (.fin 10) then .fin 0.85
  else if jsLtB elevation (.fin 20) then .fin 0.90
  else if jsLtB elevation (.fin 30) then .fin 0.93
  else .fin 0.95

/-- Function `calculateClearSkyIrradiance` under JavaScript number semantics. -/
noncomputable def calculateClearSkyIrradianceJS (elevation zenithAngle : JSNum) : JSNum :=
  if jsLeB elevation (.fin 0) then .fin 0
  else
    let zenithRad := jsDiv (jsMul zenithAngle (.fin π)) (.fin 180)
    let airmass :=
      jsDiv (.fin 1)
        (jsAdd (jsCos zenithRad)
          (jsMul (.fin 0.50572) (jsPow (jsSub (.fin 96.07995) zenithAngle) (.fin (-1.6364)))))
    let c0 : JSNum := .fin 910.6
    let c1 : JSNum := .fin 0.6797
    let c2 : JSNum := .fin (-0.00639)
    let clearSkyGHI :=
      jsMul (jsMul c0 (jsExp (jsSub c1 (jsMul c2 airmass)))) (jsMax (.fin 0) (jsCos zenithRad))
    jsMax (.fin 0) clearSkyGHI

/-- Function `decomposeIrradiance` under JavaScript number semantics. -/
noncomputable def decomposeIrradianceJS (ghi elevation cloudCover : JSNum) : JSNum × JSNum :=
  if jsLeB elevation (.fin 0) then (.fin 0, .fin 0)
  else
    let elevation_rad := jsDiv (jsMul elevation (.fin π)) (.fin 180)
    let clearSkyGHI := calculateClearSkyIrradianceJS elevation (jsSub (.fin 90) elevation)
    let clearness :=
      if jsGtB clearSkyGHI (.fin 0) then jsMin (.fin 1) (jsDiv ghi clearSkyGHI) else .fin 0
    let dhi :=
      if jsLeB clearness (.fin 0.3) then
        jsMul ghi
          (jsAdd (jsSub (.fin 1.020) (jsMul (.fin 0.254) clearness))
            (jsMul (.fin 0.0123) (jsSin elevation_rad)))
      else if jsLeB clearness (.fin 0.78) then
        jsMul ghi
          (jsAdd (jsSub (.fin 0.972) (jsMul (.fin 0.306) clearness))
            (jsMul (.fin 0.0311) (jsSin elevation_rad)))
      else
        jsMul ghi
          (jsAdd (jsMul (.fin 0.29) clearness) (jsMul (.fin 0.0049) (jsSin elevation_rad)))
    let dni := jsMax (.fin 0) (jsDiv (jsSub ghi dhi) (jsMax (.fin 0.01) (jsSin elevation_rad)))
    (jsMax (.fin 0) dni, jsMax (.fin 0) dhi)

/-- Function `predictConfidence` under JavaScript number semantics. -/
noncomputable def predictConfidenceJS (cloudCover elevation temperature : JSNum)
    (index : ℕ) (weatherData : WeatherForecastDataJS) : JSNum :=
  if jsLtB elevation (.fin 0) then .fin 0.95
  else
    let cloudVariance :=
      if 0 < index ∧ index + 1 < weatherData.cloud_cover.length then
        let prevCloud := weatherData.cloud_cover.getD (index - 1) .nan
        let nextCloud := weatherData.cloud_cover.getD (index + 1) .nan
        jsDiv (jsAbs (jsSub prevCloud nextCloud)) (.fin 100)
      else .fin 0
    let cloudConfidence := jsSub (.fin 1) (jsMul cloudVariance (.fin 0.4))
    let elevationConfidence := jsMin (.fin 1) (jsDiv elevation (.fin 80))
    let tempConfidence :=
      if jsLtB temperature (.fin (-10)) || jsGtB temperature (.fin 40) then .fin 0.7
      else .fin 0.9
    jsMax (.fin 0.1) (jsMul (jsMul cloudConfidence elevationConfidence) tempConfidence)

/-- Per-sample body of `generateSolarForecast` under JavaScript number
semantics. -/
noncomputable def forecastPointJS (lat lon : JSNum) (weatherForecast : WeatherForecastDataJS)
    (index : ℕ) (time : JSDate) : ForecastPointJS :=
  let temperature := jsIndexOrJS weatherForecast.temperature_2m index (.fin 25)
  let cloudCover := jsIndexOrJS weatherForecast.cloud_cover index (.fin 0)
  let baseGHI := jsIndexOrJS weatherForecast.shortwave_radiation index (.fin 0)
  let solarPos := calculateSolarPositionJS lat lon time
  if jsLtB solarPos.elevation (.fin 0) then
    ⟨time, .fin 0, .fin 0.95⟩
  else
    let clearSkyGHI := calculateClearSkyIrradianceJS solarPos.elevation solarPos.zenithAngle
    let cloudImpact := calculateCloudImpactJS cloudCover temperature
    let aerosolFactor := estimateAerosolFactorJS solarPos.elevation
    let predictedGHI := jsMax (.fin 0) (jsMul (jsMul baseGHI cloudImpact) aerosolFactor)
    let tempDeviation := jsMax (.fin 0) (jsSub temperature (.fin 25))
    let tempLossFactor := jsAdd (.fin 1) (jsMul (.fin (-0.004)) tempDeviation)
    let predictedIrradiance :=
      jsMax (.fin 0) (jsMul (jsMul predictedGHI (.fin 0.85)) tempLossFactor)
    let dd := decomposeIrradianceJS predictedGHI solarPos.elevation cloudCover
    let confidence := predictConfidenceJS cloudCover solarPos.elevation temperature index
      weatherForecast
    ⟨time, predictedIrradiance, confidence⟩

/-- The indexed map of `generateSolarForecast` under JavaScript number
semantics. -/
noncomputable def forecastAuxJS (lat lon : JSNum) (weatherForecast : WeatherForecastDataJS) :
    ℕ → List JSDate → List ForecastPointJS
  | _, [] => []
  | index, time :: rest =>
      forecastPointJS lat lon weatherForecast index time ::
        forecastAuxJS lat lon weatherForecast (index + 1) rest

/-- Function `generateSolarForecast` under JavaScript number semantics, with the
`try`/`catch` modelled as `Except`: the `catch` branch rethrows only if the
body throws, the body contains no `throw`, and JavaScript arithmetic, `Math.*`
calls and array indexing never throw — so the result is always `Except.ok` of
the mapped array. -/
noncomputable def generateSolarForecastJS (location : LocationDataJS)
    (historicalData : List SolarDataPointJS) (weatherForecast : WeatherForecastDataJS) :
    Except String (List ForecastPointJS) :=
  Except.ok
    (forecastAuxJS location.latitude location.longitude weatherForecast 0 weatherForecast.time)

/-! ## Helper lemmas about the orchestrator -/

theorem calculateSolarPosition_elevation (lat lon : ℝ) (d : JSDate) :
    (calculateSolarPosition lat lon d).elevation =
      arcsin (max (-1) (min 1
        (sin (lat * π / 180) * sin (solarDeclination (solarGamma d)) +
         cos (lat * π / 180) * cos (solarDeclination (solarGamma d)) *
           cos (solarHourAngle lon d)))) * (180 / π) := rfl

theorem forecastPoint_time (lat lon : ℝ) (w : WeatherForecastData) (i : ℕ) (t : JSDate) :
    (forecastPoint lat lon w i t).time = t := by
  unfold forecastPoint
  dsimp only
  split <;> rfl

theorem forecastPoint_night (lat lon : ℝ) (w : WeatherForecastData) (i : ℕ) (t : JSDate)
    (h : (calculateSolarPosition lat lon t).elevation < 0) :
    forecastPoint lat lon w i t = ⟨t, 0, 0.95⟩ := by
  unfold forecastPoint
  dsimp only
  rw [if_pos h]

theorem forecastPoint_day (lat lon : ℝ) (w : WeatherForecastData) (i : ℕ) (t : JSDate)
    (h : ¬ (calculateSolarPosition lat lon t).elevation < 0) :
    forecastPoint lat lon w i t =
      ⟨t,
       max 0 (max 0 (jsIndexOr w.shortwave_radiation i 0 *
           calculateCloudImpact (jsIndexOr w.cloud_cover i 0) (jsIndexOr w.temperature_2m i 25) *
           estimateAerosolFactor (calculateSolarPosition lat lon t).elevation) *
         systemEfficiency *
         (1 + temperatureCoefficient * max 0 (jsIndexOr w.temperature_2m i 25 - 25))),
       predictConfidence (jsIndexOr w.cloud_cover i 0)
         (calculateSolarPosition lat lon t).elevation (jsIndexOr w.temperature_2m i 25) i w⟩ := by
  unfold forecastPoint
  dsimp only
  rw [if_neg h]

theorem forecastAux_length (lat lon : ℝ) (w : WeatherForecastData) (ts : List JSDate) :
    ∀ base, (forecastAux lat lon w base ts).length = ts.length := by
  induction ts with
  | nil => intro base; rfl
  | cons t rest ih => intro base; simpa [forecastAux] using ih (base + 1)

theorem forecastAux_getD (lat lon : ℝ) (w : WeatherForecastData) (ts : List JSDate) :
    ∀ base i, i < ts.length →
      (forecastAux lat lon w base ts).getD i defaultPoint =
        forecastPoint lat lon w (base + i) (ts.getD i defaultDate) := by
  induction ts with
  | nil => intro base i h; simp at h
  | cons t rest ih =>
      intro base i h
      cases i with
      | zero => simp [forecastAux]
      | succ j =>
          have hj : j < rest.length := by simpa using Nat.lt_of_succ_lt_succ h
          have := ih (base + 1) j hj
          rw [show base + (j + 1) = base + 1 + j from by omega]
          simpa [forecastAux] using this

theorem max01_core_le_one (V E TC : ℝ) (hV : 0 ≤ V) (hE : 0 ≤ E)
    (hTC0 : 0 ≤ TC) (hTC1 : TC ≤ 1) :
    max 0.1 ((1 - V * 0.4) * min 1 E * TC) ≤ 1 := by
  have hec0 : (0 : ℝ) ≤ min 1 E := le_min (by norm_num) hE
  have hec1 : min 1 E ≤ 1 := min_le_left _ _
  refine max_le (by norm_num) ?_
  rcases le_or_lt (1 - V * 0.4) 0 with hcc | hcc
  · have h1 : (1 - V * 0.4) * min 1 E ≤ 0 := mul_nonpos_of_nonpos_of_nonneg hcc hec0
    have h2 : (1 - V * 0.4) * min 1 E * TC ≤ 0 := mul_nonpos_of_nonpos_of_nonneg h1 hTC0
    linarith
  · have hcc1 : 1 - V * 0.4 ≤ 1 := by linarith
    have h1 : (1 - V * 0.4) * min 1 E ≤ 1 := mul_le_one₀ hcc1 hec0 hec1
    have h0 : 0 ≤ (1 - V * 0.4) * min 1 E := mul_nonneg hcc.le hec0
    exact mul_le_one₀ h1 hTC0 hTC1

theorem predictConfidence_bounds (c e t : ℝ) (i : ℕ) (w : WeatherForecastData) :
    0.1 ≤ predictConfidence c e t i w ∧ predictConfidence c e t i w ≤ 1 := by
  unfold predictConfidence
  by_cases he : e < 0
  · rw [if_pos he]; norm_num
  · rw [if_neg he]
    dsimp only
    refine ⟨le_max_left _ _, ?_⟩
    have he' : (0 : ℝ) ≤ e / 80 := div_nonneg (not_lt.1 he) (by norm_num)
    split_ifs with h1 h2 h2 <;>
      [exact max01_core_le_one _ _ _ (by positivity) he' (by norm_num) (by norm_num);
       exact max01_core_le_one _ _ _ (by positivity) he' (by norm_num) (by norm_num);
       exact max01_core_le_one _ _ _ le_rfl he' (by norm_num) (by norm_num);
       exact max01_core_le_one _ _ _ le_rfl he' (by norm_num) (by norm_num)]

theorem forecastPoint_bounds (lat lon : ℝ) (w : WeatherForecastData) (i : ℕ) (t : JSDate) :
    0 ≤ (forecastPoint lat lon w i t).predictedIrradiance ∧
    0.1 ≤ (forecastPoint lat lon w i t).confidence ∧
    (forecastPoint lat lon w i t).confidence ≤ 1 := by
  by_cases h : (calculateSolarPosition lat lon t).elevation < 0
  · rw [forecastPoint_night lat lon w i t h]
    norm_num
  · rw [forecastPoint_day lat lon w i t h]
    have hb := predictConfidence_bounds (jsIndexOr w.cloud_cover i 0)
      (calculateSolarPosition lat lon t).elevation (jsIndexOr w.temperature_2m i 25) i w
    exact ⟨le_max_left _ _, hb.1, hb.2⟩

theorem forecastAux_mem_bounds (lat lon : ℝ) (w : WeatherForecastData)
    (ts : List JSDate) (p : ForecastPoint) :
    ∀ base, p ∈ forecastAux lat lon w base ts →
      0 ≤ p.predictedIrradiance ∧ 0.1 ≤ p.confidence ∧ p.confidence ≤ 1 := by
  induction ts with
  | nil => intro base h; simp [forecastAux] at h
  | cons t rest ih =>
      intro base h
      rcases List.mem_cons.1 h with h1 | h2
      · subst h1; exact forecastPoint_bounds lat lon w base t
      · exact ih (base + 1) h2

/-! ## Concrete-input facts for witnesses -/

theorem solarGamma_jan1 (h m : ℤ) : solarGamma ⟨1, h, m⟩ = 0 := by
  simp [solarGamma]

theorem solarDeclination_at_zero : solarDeclination 0 = -0.401802 := by
  norm_num [solarDeclination, Real.cos_zero, Real.sin_zero]

theorem solarEquationOfTime_at_zero : solarEquationOfTime 0 = -(229.18 * 0.039517) := by
  norm_num [solarEquationOfTime, Real.cos_zero, Real.sin_zero]

/-- At the North Pole on January 1 (midwinter) the computed solar elevation is
negative, whatever the hour. -/
theorem elevation_northpole_jan1_neg :
    (calculateSolarPosition 90 0 ⟨1, 0, 0⟩).elevation < 0 := by
  rw [calculateSolarPosition_elevation]
  have hlat : (90 : ℝ) * π / 180 = π / 2 := by ring
  rw [hlat, Real.sin_pi_div_two, Real.cos_pi_div_two, solarGamma_jan1, solarDeclination_at_zero]
  have hexpr : (1 : ℝ) * sin (-0.401802) +
      0 * cos (-0.401802) * cos (solarHourAngle 0 ⟨1, 0, 0⟩) = sin (-0.401802) := by ring
  rw [hexpr]
  have hs : sin (-0.401802 : ℝ) < 0 := by
    apply Real.sin_neg_of_neg_of_neg_pi_lt (by norm_num)
    have := Real.pi_gt_three
    linarith
  rw [min_eq_right (Real.sin_le_one _), max_eq_right (Real.neg_one_le_sin _)]
  have harc : arcsin (sin (-0.401802 : ℝ)) < 0 := Real.arcsin_lt_zero.2 hs
  have hpos : (0 : ℝ) < 180 / π := by positivity
  exact mul_neg_of_neg_of_pos harc hpos

/-- At the South Pole on January 1 (midsummer) the computed solar elevation is
nonnegative, whatever the hour. -/
theorem elevation_southpole_jan1_nonneg :
    0 ≤ (calculateSolarPosition (-90) 0 ⟨1, 0, 0⟩).elevation := by
  rw [calculateSolarPosition_elevation]
  have hlat : (-90 : ℝ) * π / 180 = -(π / 2) := by ring
  rw [hlat, Real.sin_neg, Real.cos_neg, Real.sin_pi_div_two, Real.cos_pi_div_two,
    solarGamma_jan1, solarDeclination_at_zero]
  have hexpr : (-1 : ℝ) * sin (-0.401802) +
      0 * cos (-0.401802) * cos (solarHourAngle 0 ⟨1, 0, 0⟩) = sin (0.401802) := by
    rw [Real.sin_neg]; ring
  rw [hexpr]
  have hs : 0 < sin (0.401802 : ℝ) := by
    apply Real.sin_pos_of_pos_of_lt_pi (by norm_num)
    have := Real.pi_gt_three
    linarith
  rw [min_eq_right (Real.sin_le_one _), max_eq_right (Real.neg_one_le_sin _)]
  have harc : 0 ≤ arcsin (sin (0.401802 : ℝ)) := Real.arcsin_nonneg.2 hs.le
  have hpos : (0 : ℝ) ≤ 180 / π := by positivity
  exact mul_nonneg harc hpos

/-- One-sample series at the North Pole witness date. -/
def wNight : WeatherForecastData := ⟨[⟨1, 0, 0⟩], [], [], []⟩

/-- One-sample series for the daytime witness. -/
def wDay : WeatherForecastData := ⟨[⟨1, 0, 0⟩], [30], [50], [800]⟩

/-! ## C3, C4, C5, C9, C10 -/

/-- Claim C3: for every input sample whose computed solar elevation is strictly
negative, `generateSolarForecast` returns exactly
`predictedIrradiance = 0` and `confidence = 0.95` for that sample. -/
theorem generateSolarForecast_night_short_circuit (location : LocationData)
    (historicalData : List SolarDataPoint) (w : WeatherForecastData) (i : ℕ)
    (hi : i < w.time.length)
    (hneg : (calculateSolarPosition location.latitude location.longitude
        (w.time.getD i defaultDate)).elevation < 0) :
    (generateSolarForecast location historicalData w).getD i defaultPoint =
      ⟨w.time.getD i defaultDate, 0, 0.95⟩ := by
  unfold generateSolarForecast
  rw [forecastAux_getD _ _ _ _ 0 i hi, Nat.zero_add]
  exact forecastPoint_night _ _ w i _ hneg

/-- Witness for C3: at the North Pole on January 1 the elevation is negative
and the forecast sample is exactly `(0, 0.95)`. -/
theorem generateSolarForecast_night_short_circuit_witness :
    (calculateSolarPosition 90 0 ⟨1, 0, 0⟩).elevation < 0 ∧
    (generateSolarForecast ⟨90, 0⟩ [] wNight).getD 0 defaultPoint = ⟨⟨1, 0, 0⟩, 0, 0.95⟩ :=
  ⟨elevation_northpole_jan1_neg,
   generateSolarForecast_night_short_circuit ⟨90, 0⟩ [] wNight 0 (by simp [wNight])
     elevation_northpole_jan1_neg⟩

/-- Claim C4: for every daytime sample (elevation ≥ 0) `predictedIrradiance` equals
`max 0 (max 0 (observed GHI · cloudImpact · aerosolFactor) · 0.85 ·
(1 − 0.004·max 0 (temperature − 25)))`: the base is the observed shortwave
radiation, and the clear-sky value does not occur in the result. -/
theorem generateSolarForecast_daytime_formula (location : LocationData)
    (historicalData : List SolarDataPoint) (w : WeatherForecastData) (i : ℕ)
    (hi : i < w.time.length)
    (hpos : 0 ≤ (calculateSolarPosition location.latitude location.longitude
        (w.time.getD i defaultDate)).elevation) :
    ((generateSolarForecast location historicalData w).getD i defaultPoint).predictedIrradiance =
      max 0 (max 0 (jsIndexOr w.shortwave_radiation i 0 *
          calculateCloudImpact (jsIndexOr w.cloud_cover i 0) (jsIndexOr w.temperature_2m i 25) *
          estimateAerosolFactor (calculateSolarPosition location.latitude location.longitude
            (w.time.getD i defaultDate)).elevation) *
        0.85 * (1 - 0.004 * max 0 (jsIndexOr w.temperature_2m i 25 - 25))) := by
  unfold generateSolarForecast
  rw [forecastAux_getD _ _ _ _ 0 i hi, Nat.zero_add,
    forecastPoint_day _ _ w i _ (not_lt.2 hpos)]
  dsimp only
  unfold systemEfficiency temperatureCoefficient
  congr 1
  ring

/-- Witness for C4: at the South Pole on January 1 the elevation is
nonnegative and the daytime formula applies. -/
theorem generateSolarForecast_daytime_formula_witness :
    0 ≤ (calculateSolarPosition (-90) 0 ⟨1, 0, 0⟩).elevation ∧
    ((generateSolarForecast ⟨-90, 0⟩ [] wDay).getD 0 defaultPoint).predictedIrradiance =
      max 0 (max 0 (jsIndexOr wDay.shortwave_radiation 0 0 *
          calculateCloudImpact (jsIndexOr wDay.cloud_cover 0 0) (jsIndexOr wDay.temperature_2m 0 25) *
          estimateAerosolFactor (calculateSolarPosition (-90) 0 ⟨1, 0, 0⟩).elevation) *
        0.85 * (1 - 0.004 * max 0 (jsIndexOr wDay.temperature_2m 0 25 - 25))) :=
  ⟨elevation_southpole_jan1_nonneg,
   generateSolarForecast_daytime_formula ⟨-90, 0⟩ [] wDay 0 (by simp [wDay])
     elevation_southpole_jan1_nonneg⟩

/-- Claim C5: every produced `ForecastPoint` satisfies `predictedIrradiance ≥ 0`
and `confidence ∈ [0.1, 1]`. -/
theorem generateSolarForecast_bounds (location : LocationData)
    (historicalData : List SolarDataPoint) (w : WeatherForecastData) (p : ForecastPoint)
    (hp : p ∈ generateSolarForecast location historicalData w) :
    0 ≤ p.predictedIrradiance ∧ 0.1 ≤ p.confidence ∧ p.confidence ≤ 1 :=
  forecastAux_mem_bounds location.latitude location.longitude w w.time p 0 hp

/-- Witness for C5 at a concrete one-sample series. -/
theorem generateSolarForecast_bounds_witness :
    (forecastPoint 90 0 wNight 0 ⟨1, 0, 0⟩ ∈ generateSolarForecast ⟨90, 0⟩ [] wNight) ∧
    (0 ≤ (forecastPoint 90 0 wNight 0 ⟨1, 0, 0⟩).predictedIrradiance ∧
     0.1 ≤ (forecastPoint 90 0 wNight 0 ⟨1, 0, 0⟩).confidence ∧
     (forecastPoint 90 0 wNight 0 ⟨1, 0, 0⟩).confidence ≤ 1) := by
  have hmem : forecastPoint 90 0 wNight 0 ⟨1, 0, 0⟩ ∈ generateSolarForecast ⟨90, 0⟩ [] wNight := by
    simp [generateSolarForecast, forecastAux, wNight]
  exact ⟨hmem, generateSolarForecast_bounds ⟨90, 0⟩ [] wNight _ hmem⟩

/-- Claim C9: the output has exactly the length of the input `time` array, and the
`i`-th output point carries the `i`-th input time. -/
theorem generateSolarForecast_preserves_times (location : LocationData)
    (historicalData : List SolarDataPoint) (w : WeatherForecastData) :
    (generateSolarForecast location historicalData w).length = w.time.length ∧
    ∀ i, i < w.time.length →
      ((generateSolarForecast location historicalData w).getD i defaultPoint).time =
        w.time.getD i defaultDate := by
  constructor
  · exact forecastAux_length _ _ _ _ 0
  · intro i hi
    unfold generateSolarForecast
    rw [forecastAux_getD _ _ _ _ 0 i hi, forecastPoint_time]

/-- Witness for C9 at a concrete one-sample series. -/
theorem generateSolarForecast_preserves_times_witness :
    (generateSolarForecast ⟨90, 0⟩ [] wNight).length = wNight.time.length ∧
    ((generateSolarForecast ⟨90, 0⟩ [] wNight).getD 0 defaultPoint).time =
      wNight.time.getD 0 defaultDate :=
  ⟨(generateSolarForecast_preserves_times ⟨90, 0⟩ [] wNight).1,
   (generateSolarForecast_preserves_times ⟨90, 0⟩ [] wNight).2 0 (by simp [wNight])⟩

/-- Claim C10: when the computed elevation is exactly 0 the night short-circuit is
not taken and the returned confidence is exactly the floor 0.1, because
`elevationConfidence = min 1 (0/80) = 0` zeroes the confidence product. -/
theorem generateSolarForecast_zero_elevation_confidence (location : LocationData)
    (historicalData : List SolarDataPoint) (w : WeatherForecastData) (i : ℕ)
    (hi : i < w.time.length)
    (hzero : (calculateSolarPosition location.latitude location.longitude
        (w.time.getD i defaultDate)).elevation = 0) :
    ((generateSolarForecast location historicalData w).getD i defaultPoint).confidence = 0.1 := by
  unfold generateSolarForecast
  rw [forecastAux_getD _ _ _ _ 0 i hi, Nat.zero_add,
    forecastPoint_day _ _ w i _ (by rw [hzero]; exact lt_irrefl 0)]
  dsimp only
  rw [hzero]
  unfold predictConfidence
  rw [if_neg (lt_irrefl 0)]
  dsimp only
  rw [show (0 : ℝ) / 80 = 0 by norm_num, min_eq_right (by norm_num : (0:ℝ) ≤ 1)]
  rw [mul_zero, zero_mul, max_eq_left (by norm_num : (0:ℝ) ≤ 0.1)]

/-- Witness date for the elevation-zero construction: January 1, 18:00 UTC. -/
def dZero : JSDate := ⟨1, 18, 0⟩

/-- Witness longitude chosen so that `eot + longitude*4 = 0`, putting 18:00 UTC
exactly at hour angle 90°. -/
noncomputable def lonZero : ℝ := 229.18 * 0.039517 / 4

/-- One-sample series for the elevation-zero witness. -/
def wZero : WeatherForecastData := ⟨[dZero], [25], [0], [100]⟩

theorem solarHourAngle_lonZero : solarHourAngle lonZero dZero = π / 2 := by
  unfold solarHourAngle lonZero
  have hg : solarGamma dZero = 0 := solarGamma_jan1 18 0
  rw [hg, solarEquationOfTime_at_zero]
  dsimp only
  have hnum : (((dZero.utcHours : ℝ) * 60 + (dZero.utcMinutes : ℝ)) +
      -(229.18 * 0.039517) + 229.18 * 0.039517 / 4 * 4) / 60 - 12 = 6 := by
    norm_num [dZero]
  rw [hnum]
  ring

theorem elevation_equator_lonZero_eq_zero :
    (calculateSolarPosition 0 lonZero dZero).elevation = 0 := by
  rw [calculateSolarPosition_elevation]
  rw [show (0 : ℝ) * π / 180 = 0 by ring, Real.sin_zero, Real.cos_zero,
    solarHourAngle_lonZero, Real.cos_pi_div_two]
  rw [show (0 : ℝ) * sin (solarDeclination (solarGamma dZero)) +
      1 * cos (solarDeclination (solarGamma dZero)) * 0 = 0 by ring]
  rw [min_eq_right (by norm_num : (0 : ℝ) ≤ 1),
    max_eq_right (by norm_num : (-1 : ℝ) ≤ 0), Real.arcsin_zero, zero_mul]

/-- Witness for C10: a concrete input with computed elevation exactly 0 where
the confidence is the 0.1 floor while the predicted irradiance is positive. -/
theorem generateSolarForecast_zero_elevation_confidence_witness :
    (calculateSolarPosition 0 lonZero dZero).elevation = 0 ∧
    ((generateSolarForecast ⟨0, lonZero⟩ [] wZero).getD 0 defaultPoint).confidence = 0.1 ∧
    0 < ((generateSolarForecast ⟨0, lonZero⟩ [] wZero).getD 0 defaultPoint).predictedIrradiance := by
  have hz := elevation_equator_lonZero_eq_zero
  refine ⟨hz,
    generateSolarForecast_zero_elevation_confidence ⟨0, lonZero⟩ [] wZero 0
      (by simp [wZero]) hz, ?_⟩
  have hgd : (generateSolarForecast ⟨0, lonZero⟩ [] wZero).getD 0 defaultPoint =
      forecastPoint 0 lonZero wZero 0 dZero := by
    unfold generateSolarForecast
    rw [forecastAux_getD _ _ _ _ 0 0 (by simp [wZero])]
    rfl
  rw [hgd, forecastPoint_day _ _ _ _ _ (by rw [hz]; exact lt_irrefl 0)]
  dsimp only
  have h1 : jsIndexOr wZero.shortwave_radiation 0 0 = 100 := by
    norm_num [jsIndexOr, wZero]
  have h2 : jsIndexOr wZero.cloud_cover 0 0 = 0 := by
    norm_num [jsIndexOr, wZero]
  have h3 : jsIndexOr wZero.temperature_2m 0 25 = 25 := by
    norm_num [jsIndexOr, wZero]
  rw [h1, h2, h3, hz]
  have h4 : calculateCloudImpact 0 25 = 0.95 := by
    unfold calculateCloudImpact
    rw [if_pos (by norm_num : (0 : ℝ) < 10)]
  have h5 : estimateAerosolFactor 0 = 0.85 := by
    unfold estimateAerosolFactor
    rw [if_neg (lt_irrefl 0), if_pos (by norm_num : (0 : ℝ) < 10)]
  rw [h4, h5]
  unfold systemEfficiency temperatureCoefficient
  rw [show (25 : ℝ) - 25 = 0 by norm_num, max_self,
    show max (0 : ℝ) (100 * 0.95 * 0.85) = 100 * 0.95 * 0.85 from max_eq_right (by norm_num)]
  rw [show (100 : ℝ) * 0.95 * 0.85 * 0.85 * (1 + -0.004 * 0) = 68.6375 by norm_num]
  rw [max_eq_right (by norm_num : (0 : ℝ) ≤ 68.6375)]
  norm_num

/-! ## C6: the clear-sky model -/

/-- Claim C6: `calculateClearSkyIrradiance` returns 0 for elevation ≤ 0 and
otherwise `max 0 (910.6 · exp(0.6797 + 0.00639·airmass) · max 0 (cos zenithRad))`
with the Kasten-Young airmass — the exponent's airmass coefficient is
`+0.00639`. -/
theorem calculateClearSkyIrradiance_formula (elevation zenithAngle : ℝ) :
    calculateClearSkyIrradiance elevation zenithAngle =
      if elevation ≤ 0 then 0
      else
        max 0 (910.6 *
          exp (0.6797 + 0.00639 *
            (1 / (cos (zenithAngle * π / 180) +
              0.50572 * (96.07995 - zenithAngle) ^ (-1.6364 : ℝ)))) *
          max 0 (cos (zenithAngle * π / 180))) := by
  unfold calculateClearSkyIrradiance
  split
  · rfl
  · dsimp only
    congr 2
    ring

/-! ## C2: cloud-impact monotonicity -/

theorem rpow_point_one_lt : (0.1 : ℝ) ^ (1.3 : ℝ) < 1 / 17 := by
  have e1 : ((0.1 : ℝ) ^ (1.3 : ℝ)) ^ (10 : ℕ) = (0.1 : ℝ) ^ (13 : ℝ) := by
    rw [← Real.rpow_natCast ((0.1 : ℝ) ^ (1.3 : ℝ)) 10,
      ← Real.rpow_mul (by norm_num : (0 : ℝ) ≤ 0.1)]
    norm_num
  have h10 : ((0.1 : ℝ) ^ (1.3 : ℝ)) ^ (10 : ℕ) < ((1 : ℝ) / 17) ^ (10 : ℕ) := by
    rw [e1, show (13 : ℝ) = ((13 : ℕ) : ℝ) by norm_num, Real.rpow_natCast]
    norm_num
  exact lt_of_pow_lt_pow_left₀ 10 (by norm_num) h10

/-- Counterexample to C2: cloud impact is not globally non-increasing in cloud
cover — at cloudCover 9 it is 0.95, and at cloudCover 10 (the first point past
the near-clear branch) it is `1 − 0.1^1.3·0.85 ≈ 0.957 > 0.95` (temperature 40
makes the temperature factor exactly 1). -/
theorem calculateCloudImpact_not_monotone :
    ¬ calculateCloudImpact 10 40 ≤ calculateCloudImpact 9 40 := by
  have h9 : calculateCloudImpact 9 40 = 0.95 := by
    unfold calculateCloudImpact
    rw [if_pos (by norm_num : (9 : ℝ) < 10)]
  have h10 : 0.95 < calculateCloudImpact 10 40 := by
    unfold calculateCloudImpact
    rw [if_neg (by norm_num : ¬ (10 : ℝ) < 10), if_neg (by norm_num : ¬ (10 : ℝ) > 90)]
    dsimp only
    have htf : max (0.8 : ℝ) (min 1.0 ((40 + 5) / 45)) = 1 := by norm_num
    rw [htf, mul_one]
    have hlt : (0.95 : ℝ) < 1 - ((10 : ℝ) / 100) ^ (1.3 : ℝ) * 0.85 := by
      have : ((10 : ℝ) / 100) = (0.1 : ℝ) := by norm_num
      rw [this]
      have := rpow_point_one_lt
      linarith
    exact lt_of_lt_of_le hlt (le_max_right _ _)
  rw [h9]
  exact not_le.2 h10

/-- Claim C2, amended: for fixed temperature the cloud impact is constant (0.95)
below cloudCover 10 and non-increasing on cloudCover ≥ 10; global
monotonicity fails only across the 10 boundary, where the value steps up from
0.95. -/
theorem calculateCloudImpact_monotone_amended (t : ℝ) :
    (∀ c, c < 10 → calculateCloudImpact c t = 0.95) ∧
    (∀ c1 c2, 10 ≤ c1 → c1 ≤ c2 →
      calculateCloudImpact c2 t ≤ calculateCloudImpact c1 t) := by
  constructor
  · intro c hc
    unfold calculateCloudImpact
    rw [if_pos hc]
  · intro c1 c2 h1 h12
    unfold calculateCloudImpact
    rw [if_neg (not_lt.2 (by linarith : (10 : ℝ) ≤ c1)),
      if_neg (not_lt.2 (by linarith : (10 : ℝ) ≤ c2))]
    by_cases h90a : c1 > 90
    · rw [if_pos h90a, if_pos (by linarith : c2 > 90)]
    · rw [if_neg h90a]
      dsimp only
      have htf0 : (0 : ℝ) < max 0.8 (min 1.0 ((t + 5) / 45)) :=
        lt_of_lt_of_le (by norm_num) (le_max_left _ _)
      have htf1 : max (0.8 : ℝ) (min 1.0 ((t + 5) / 45)) ≤ 1 :=
        max_le (by norm_num) (le_trans (min_le_left _ _) (by norm_num))
      have hc1nn : (0 : ℝ) ≤ c1 / 100 := div_nonneg (by linarith) (by norm_num)
      by_cases h90b : c2 > 90
      · rw [if_pos h90b]
        have hop1 : ((c1 / 100 : ℝ)) ^ (1.3 : ℝ) ≤ 1 :=
          Real.rpow_le_one hc1nn (by linarith [not_lt.1 h90a]) (by norm_num)
        have hopnn : (0 : ℝ) ≤ ((c1 / 100 : ℝ)) ^ (1.3 : ℝ) := Real.rpow_nonneg hc1nn _
        have hprod : ((c1 / 100 : ℝ)) ^ (1.3 : ℝ) * max 0.8 (min 1.0 ((t + 5) / 45)) ≤ 1 :=
          mul_le_one₀ hop1 htf0.le htf1
        have hprod85 : ((c1 / 100 : ℝ)) ^ (1.3 : ℝ) * max 0.8 (min 1.0 ((t + 5) / 45)) * 0.85
            ≤ 0.85 := by nlinarith
        exact le_trans (by linarith : (0.15 : ℝ) ≤
          1 - (c1 / 100 : ℝ) ^ (1.3 : ℝ) * max 0.8 (min 1.0 ((t + 5) / 45)) * 0.85)
          (le_max_right _ _)
      · rw [if_neg h90b]
        have hmono : ((c1 / 100 : ℝ)) ^ (1.3 : ℝ) ≤ ((c2 / 100 : ℝ)) ^ (1.3 : ℝ) :=
          Real.rpow_le_rpow hc1nn (by linarith) (by norm_num)
        have hstep := mul_le_mul_of_nonneg_right
          (mul_le_mul_of_nonneg_right hmono htf0.le) (by norm_num : (0 : ℝ) ≤ 0.85)
        exact max_le_max le_rfl (by linarith)

/-- Witness for the amended C2 at concrete cloud covers 20 ≤ 50. -/
theorem calculateCloudImpact_monotone_amended_witness :
    calculateCloudImpact 5 20 = 0.95 ∧
    calculateCloudImpact 50 20 ≤ calculateCloudImpact 20 20 :=
  ⟨(calculateCloudImpact_monotone_amended 20).1 5 (by norm_num),
   (calculateCloudImpact_monotone_amended 20).2 20 50 (by norm_num) (by norm_num)⟩

/-! ## C7, C8: trend analyzer -/

theorem trendNum_cons (xM yM v : ℝ) (x : ℕ) (vs : List ℝ) :
    trendNum xM yM x (v :: vs) = ((x : ℝ) - xM) * (v - yM) + trendNum xM yM (x + 1) vs := rfl

theorem trendDen_cons (xM v : ℝ) (x : ℕ) (vs : List ℝ) :
    trendDen xM x (v :: vs) = ((x : ℝ) - xM) ^ 2 + trendDen xM (x + 1) vs := rfl

theorem trendDen_nonneg (xM : ℝ) : ∀ (l : List ℝ) (j : ℕ), 0 ≤ trendDen xM j l := by
  intro l
  induction l with
  | nil => intro j; simp [trendDen]
  | cons v vs ih =>
      intro j
      rw [trendDen_cons]
      have := ih (j + 1)
      positivity

set_option maxHeartbeats 2000000 in
/-- Function `calculateTrend` recovers the exact slope of a perfectly linear 24-sample
channel. -/
theorem calculateTrend_linear (a k : ℝ) :
    calculateTrend 24 ((List.range 24).map (fun x : ℕ => a + k * (x : ℝ))) = k := by
  have h : List.range 24 =
      [0, 1, 2, 3, 4, 5, 6, 7, 8, 9, 10, 11, 12, 13, 14, 15, 16, 17, 18, 19, 20, 21, 22, 23] := by
    decide
  rw [h]
  simp only [calculateTrend, List.map_cons, List.map_nil]
  rw [List.take_of_length_le (by simp)]
  norm_num [trendNum, trendDen]
  ring_nf

/-- JavaScript `Number(x.toFixed(d))` moves a value by at most half a unit in the last
kept decimal place. -/
theorem roundTo_close (d : ℕ) (x : ℝ) : |roundTo d x - x| ≤ 1 / 2 / 10 ^ d := by
  unfold roundTo
  have h10 : (0 : ℝ) < 10 ^ d := by positivity
  rw [show ((round (x * 10 ^ d) : ℤ) : ℝ) / 10 ^ d - x =
      (((round (x * 10 ^ d) : ℤ) : ℝ) - x * 10 ^ d) / 10 ^ d by field_simp; ring]
  rw [abs_div, abs_of_pos h10]
  gcongr
  rw [abs_sub_comm]
  exact abs_sub_round _

/-- Claim C7: the trend analyzer is the least-squares slope of the first
`min(24, length)` channel values against index: it recovers the slope of a
perfectly linear 24-sample channel exactly (subject only to the
3-decimal display rounding), returns 0 on fewer than 2 samples, and its
denominator is strictly positive whenever 2 or more samples are present (so
the zero-denominator guard never changes a result). -/
theorem analyzeWeatherTrends_ols (a k : ℝ) :
    calculateTrend 24 ((List.range 24).map (fun x : ℕ => a + k * (x : ℝ))) = k ∧
    (∀ f : EnhancedWeatherForecast,
      f.temperature_2m = (List.range 24).map (fun x : ℕ => a + k * (x : ℝ)) →
        (analyzeWeatherTrends f).tempTrend = roundTo 3 k ∧
        |(analyzeWeatherTrends f).tempTrend - k| ≤ 1 / 2000) ∧
    (∀ (n : ℕ) (data : List ℝ), (data.take n).length < 2 → calculateTrend n data = 0) ∧
    (∀ (n : ℕ) (data : List ℝ), 2 ≤ (data.take n).length →
      0 < trendDen ((((data.take n).length : ℝ) - 1) / 2) 0 (data.take n)) := by
  refine ⟨calculateTrend_linear a k, ?_, ?_, ?_⟩
  · intro f hf
    have hlen : f.temperature_2m.length = 24 := by
      rw [hf, List.length_map, List.length_range]
    have hmin : min 24 f.temperature_2m.length = 24 := by rw [hlen]; exact min_self 24
    have htt : (analyzeWeatherTrends f).tempTrend = roundTo 3 k := by
      unfold analyzeWeatherTrends
      rw [hmin, if_neg (by norm_num)]
      dsimp only
      rw [hf, calculateTrend_linear a k]
    refine ⟨htt, ?_⟩
    rw [htt]
    have := roundTo_close 3 k
    norm_num at this ⊢
    linarith
  · intro n data h
    unfold calculateTrend
    rw [if_pos h]
  · intro n data h
    rcases hs : data.take n with _ | ⟨v, vs⟩
    · rw [hs] at h; simp at h
    · rw [hs] at h
      have hL : (2 : ℝ) ≤ ((v :: vs).length : ℝ) := by exact_mod_cast h
      have hxM : (1 : ℝ) / 2 ≤ (((v :: vs).length : ℝ) - 1) / 2 := by linarith
      rw [trendDen_cons]
      have h1 := trendDen_nonneg ((((v :: vs).length : ℝ) - 1) / 2) vs 1
      have h2 : ((0 : ℕ) : ℝ) = 0 := by norm_num
      nlinarith [sq_nonneg (((0 : ℕ) : ℝ) - (((v :: vs).length : ℝ) - 1) / 2)]

/-- Concrete linear channel for the C7 witness. -/
noncomputable def fLin : EnhancedWeatherForecast :=
  ⟨(List.range 24).map (fun x : ℕ => (1 : ℝ) + 2 * (x : ℝ)), [], none, none, none, none⟩

/-- Witness for C7 at slope 2, intercept 1. -/
theorem analyzeWeatherTrends_ols_witness :
    calculateTrend 24 ((List.range 24).map (fun x : ℕ => (1 : ℝ) + 2 * (x : ℝ))) = 2 ∧
    (analyzeWeatherTrends fLin).tempTrend = roundTo 3 2 ∧
    calculateTrend 24 ([] : List ℝ) = 0 ∧
    0 < trendDen (((([(5 : ℝ), 7].take 24).length : ℝ) - 1) / 2) 0 ([(5 : ℝ), 7].take 24) :=
  ⟨(analyzeWeatherTrends_ols 1 2).1,
   ((analyzeWeatherTrends_ols 1 2).2.1 fLin rfl).1,
   (analyzeWeatherTrends_ols 1 2).2.2.1 24 [] (by simp),
   (analyzeWeatherTrends_ols 1 2).2.2.2 24 [5, 7]
     (by rw [List.take_of_length_le (by norm_num)]; norm_num)⟩

/-- Claim C8: degenerate series take the defined fallbacks — all five trend slopes
are 0 when the series has fewer than 2 samples, and forecast quality is
exactly 0.5 when the series is empty. -/
theorem analyzer_degenerate_fallbacks :
    (∀ f : EnhancedWeatherForecast, f.temperature_2m.length < 2 →
      analyzeWeatherTrends f = ⟨0, 0, 0, 0, 0⟩) ∧
    (∀ f : EnhancedWeatherForecast, f.temperature_2m = [] →
      calculateForecastQuality f = 0.5) := by
  constructor
  · intro f hf
    unfold analyzeWeatherTrends
    rw [if_pos (lt_of_le_of_lt (min_le_right _ _) hf)]
  · intro f hf
    unfold calculateForecastQuality
    rw [if_pos (by rw [hf]; rfl)]

/-- Empty series for the C8 witness. -/
def fEmpty : EnhancedWeatherForecast := ⟨[], [], none, none, none, none⟩

/-- Witness for C8 on the empty series. -/
theorem analyzer_degenerate_fallbacks_witness :
    analyzeWeatherTrends fEmpty = ⟨0, 0, 0, 0, 0⟩ ∧ calculateForecastQuality fEmpty = 0.5 :=
  ⟨analyzer_degenerate_fallbacks.1 fEmpty (by norm_num [fEmpty]),
   analyzer_degenerate_fallbacks.2 fEmpty rfl⟩

/-! ## C1: behaviour on non-finite coordinates -/

theorem forecastAuxJS_length (lat lon : JSNum) (w : WeatherForecastDataJS)
    (ts : List JSDate) : ∀ base, (forecastAuxJS lat lon w base ts).length = ts.length := by
  induction ts with
  | nil => intro base; rfl
  | cons t rest ih => intro base; simpa [forecastAuxJS] using ih (base + 1)

/-- Claim C1, amended: `generateSolarForecast` performs no coordinate validation and
never rejects — for every input, NaN coordinates included, it resolves with a
`ForecastPoint` array of exactly the input length. -/
theorem generateSolarForecastJS_total (location : LocationDataJS)
    (historicalData : List SolarDataPointJS) (w : WeatherForecastDataJS) :
    ∃ pts, generateSolarForecastJS location historicalData w = Except.ok pts ∧
      pts.length = w.time.length :=
  ⟨_, rfl, forecastAuxJS_length _ _ _ _ 0⟩

theorem calculateSolarPositionJS_nan_elevation (lon : JSNum) (d : JSDate) :
    (calculateSolarPositionJS .nan lon d).elevation = .nan := by
  unfold calculateSolarPositionJS
  dsimp only
  simp

/-- One-sample series (25 °C, 0 % cloud, 100 W/m²) for the NaN-latitude
counterexample. -/
def wNaN : WeatherForecastDataJS :=
  ⟨[⟨1, 0, 0⟩], [.fin 25], [.fin 0], [.fin 100]⟩

theorem jsIndexOrJS_wNaN_temp : jsIndexOrJS wNaN.temperature_2m 0 (.fin 25) = .fin 25 := by
  norm_num [jsIndexOrJS, wNaN]

theorem jsIndexOrJS_wNaN_cloud : jsIndexOrJS wNaN.cloud_cover 0 (.fin 0) = .fin 0 := by
  norm_num [jsIndexOrJS, wNaN]

theorem jsIndexOrJS_wNaN_ghi : jsIndexOrJS wNaN.shortwave_radiation 0 (.fin 0) = .fin 100 := by
  norm_num [jsIndexOrJS, wNaN]

theorem calculateCloudImpactJS_clear : calculateCloudImpactJS (.fin 0) (.fin 25) = .fin 0.95 := by
  norm_num [calculateCloudImpactJS]

theorem estimateAerosolFactorJS_nan : estimateAerosolFactorJS .nan = .fin 0.95 := by
  norm_num [estimateAerosolFactorJS]

theorem predictConfidenceJS_nan : predictConfidenceJS (.fin 0) .nan (.fin 25) 0 wNaN = .nan := by
  unfold predictConfidenceJS
  norm_num

/-- Counterexample to C1: with NaN latitude the call does not fail — it
returns a full `ForecastPoint` array; the night branch is skipped (NaN
comparisons are false), the irradiance is a finite number, and the confidence
is NaN. -/
theorem generateSolarForecastJS_nan_counterexample :
    generateSolarForecastJS ⟨JSNum.nan, JSNum.fin 0⟩ [] wNaN =
      Except.ok [⟨⟨1, 0, 0⟩, JSNum.fin 76.7125, JSNum.nan⟩] := by
  unfold generateSolarForecastJS
  have hlist : forecastAuxJS JSNum.nan (JSNum.fin 0) wNaN 0 wNaN.time =
      [forecastPointJS JSNum.nan (JSNum.fin 0) wNaN 0 ⟨1, 0, 0⟩] := rfl
  rw [show (⟨JSNum.nan, JSNum.fin 0⟩ : LocationDataJS).latitude = JSNum.nan from rfl,
    show (⟨JSNum.nan, JSNum.fin 0⟩ : LocationDataJS).longitude = JSNum.fin 0 from rfl, hlist]
  congr 1
  unfold forecastPointJS
  dsimp only
  rw [calculateSolarPositionJS_nan_elevation, jsIndexOrJS_wNaN_temp, jsIndexOrJS_wNaN_cloud,
    jsIndexOrJS_wNaN_ghi, calculateCloudImpactJS_clear, estimateAerosolFactorJS_nan,
    predictConfidenceJS_nan]
  norm_num [max_eq_right]
